import Mathlib

/-!
Shallow embedding of the control core of heaterController.py
(SolarHeaterController). Temperatures are rationals (Python floats),
pump speeds and duty cycles are integers. A Python Optional float is an
Option of a rational; the Python truthiness test applied by the source to
optional readings (where both None and 0.0 are falsy) is modelled by
pyTruthy. The shutdown flag control_thread_running is modelled as always
true, so the sweep is never interrupted; wall-clock waits, the PWM device
and the status message strings are not modelled.
-/

/-- Numeric configuration of the control core, with fields named after the
keys of DEFAULT_SETTINGS in heaterController.py. -/
structure Config where
  MIN_PUMP_SPEED : Int
  MAX_PUMP_SPEED : Int
  PUMP_SPEED_STEP : Int
  DELTA_T_ON : ℚ
  DELTA_T_OFF : ℚ
  MIN_INLET_TEMP_TO_RUN : ℚ
  MAX_OUTLET_TEMP_CUTOFF : ℚ
  MAX_PUMP_FLOW_RATE_LPM : ℚ
deriving DecidableEq

/-- Numeric part of DEFAULT_SETTINGS. -/
def defaultConfig : Config where
  MIN_PUMP_SPEED := 20
  MAX_PUMP_SPEED := 100
  PUMP_SPEED_STEP := 5
  DELTA_T_ON := 4
  DELTA_T_OFF := 3/2
  MIN_INLET_TEMP_TO_RUN := 10
  MAX_OUTLET_TEMP_CUTOFF := 75
  MAX_PUMP_FLOW_RATE_LPM := 20

/-- Small configuration used for concrete runs (same thresholds as the
defaults, a three-candidate speed band). -/
def cfgSmall : Config where
  MIN_PUMP_SPEED := 20
  MAX_PUMP_SPEED := 30
  PUMP_SPEED_STEP := 5
  DELTA_T_ON := 4
  DELTA_T_OFF := 3/2
  MIN_INLET_TEMP_TO_RUN := 10
  MAX_OUTLET_TEMP_CUTOFF := 75
  MAX_PUMP_FLOW_RATE_LPM := 20

def SPECIFIC_HEAT_CAPACITY_WATER : ℚ := 4186

def WATER_DENSITY_KG_L : ℚ := 1

/-- Python truthiness of an Optional float: None and 0.0 are both falsy. -/
def pyTruthy : Option ℚ → Bool
  | none => false
  | some x => x != 0

/-- set_pump_speed (heaterController.py:236): the requested speed is clamped
to the range 0 to 100; a positive clamped target is then clamped into the
band from MIN_PUMP_SPEED to MAX_PUMP_SPEED; the returned value is the actual
duty cycle commanded to the PWM device. -/
def set_pump_speed (cfg : Config) (speed_percent_target : Int) : Int :=
  let target_speed := max 0 (min 100 speed_percent_target)
  if 0 < target_speed then
    max cfg.MIN_PUMP_SPEED (min cfg.MAX_PUMP_SPEED target_speed)
  else 0

/-- calculate_estimated_thermal_power (heaterController.py:253): None when
delta-T or the duty is missing or the duty is exactly 0, otherwise the flow
and heat-capacity product. -/
def calculate_estimated_thermal_power (cfg : Config) (delta_t_celsius : Option ℚ)
    (current_actual_pump_speed_percent : Option ℚ) : Option ℚ :=
  match delta_t_celsius, current_actual_pump_speed_percent with
  | some dt, some s =>
    if s = 0 then none
    else some ((s / 100 * (cfg.MAX_PUMP_FLOW_RATE_LPM / 60)) * WATER_DENSITY_KG_L *
      SPECIFIC_HEAT_CAPACITY_WATER * dt)
  | _, _ => none

/-- celsius_to_fahrenheit (heaterController.py:80) on a present value. -/
def celsius_to_fahrenheit (temp_c : ℚ) : ℚ := temp_c * 9 / 5 + 32

/-- Models the Python round(x, 2) applied before storing temperatures
(heaterController.py:321-323). Ties are rounded half up here while Python
rounds ties on the binary representation to even; no claim in this
development depends on tie behaviour. -/
def round2 (q : ℚ) : ℚ := (round (q * 100) : ℤ) / 100

/-- DISPLAY_TEMP_UNIT setting. -/
inductive TempUnit | C | F
deriving DecidableEq

/-- Value stored in a graph history point (heaterController.py:316-317):
converted to Fahrenheit when the configured display unit is F, the raw
Celsius value otherwise. -/
def graph_temp_value (u : TempUnit) (temp_c : ℚ) : ℚ :=
  match u with
  | .F => celsius_to_fahrenheit temp_c
  | .C => temp_c

/-- Keyword keys tested by update_status_and_history before appending a
null history point (heaterController.py:324). -/
def status_only_keys : List String := ["pump_speed", "system_message", "target_pump_speed"]

/-- Observable appends of one call to update_status_and_history: the point
appended to the temperature_history ring (if any; a pair of nullable
temperatures) and the record appended to log_buffer (if any). -/
structure RecordEffect where
  historyAppend : Option (Option ℚ × Option ℚ)
  logAppend : Option (ℚ × ℚ)
deriving DecidableEq

/-- update_status_and_history (heaterController.py:289-325), restricted to
its appends to temperature_history and log_buffer. Both appends require both
temperatures to be present floats; otherwise a all-null history point is
appended unless one of the three status keys occurs in the keyword
arguments. The display-formatted status fields, delta-T and power fields are
not needed by any claim and are not modelled. -/
def update_status_and_history (u : TempUnit) (inlet_temp_c outlet_temp_c : Option ℚ)
    (kwargKeys : List String) : RecordEffect :=
  match inlet_temp_c, outlet_temp_c with
  | some i, some o =>
    { historyAppend := some (some (round2 (graph_temp_value u i)),
        some (round2 (graph_temp_value u o))),
      logAppend := some (round2 i, round2 o) }
  | _, _ =>
    if status_only_keys.any (fun k => kwargKeys.contains k) then
      { historyAppend := none, logAppend := none }
    else
      { historyAppend := some (none, none), logAppend := none }

/-- Daily statistics fields of app_status. -/
structure DailyStats where
  last_stats_reset_date : String
  pump_on_time_today_s : ℚ
  energy_harvested_today_wh : ℚ
deriving DecidableEq

/-- Rollover part of update_daily_stats (heaterController.py:260-265): zero
both accumulators and store the new date when the stored reset date differs
from the current local date. -/
def daily_reset (today_iso : String) (st : DailyStats) : DailyStats :=
  if st.last_stats_reset_date ≠ today_iso then
    { last_stats_reset_date := today_iso, pump_on_time_today_s := 0,
      energy_harvested_today_wh := 0 }
  else st

/-- Accumulation part of update_daily_stats (heaterController.py:266-269):
when the pump is on, add the elapsed seconds to the on-time and, when the
power value is present and positive, the corresponding Wh to the energy. -/
def daily_accumulate (st : DailyStats) (pump_is_on_flag : Bool)
    (seconds_elapsed : ℚ) (current_power_watts : Option ℚ) : DailyStats :=
  if pump_is_on_flag then
    let st2 := { st with pump_on_time_today_s := st.pump_on_time_today_s + seconds_elapsed }
    match current_power_watts with
    | some p =>
      if 0 < p then
        { st2 with energy_harvested_today_wh :=
            st2.energy_harvested_today_wh + p * seconds_elapsed / 3600 }
      else st2
    | none => st2
  else st

/-- update_daily_stats (heaterController.py:258-269), with the current local
date passed explicitly instead of read from the clock: the lazy daily
rollover followed by the accumulation. -/
def update_daily_stats (today_iso : String) (st : DailyStats) (pump_is_on_flag : Bool)
    (seconds_elapsed : ℚ) (current_power_watts : Option ℚ) : DailyStats :=
  daily_accumulate (daily_reset today_iso st) pump_is_on_flag seconds_elapsed
    current_power_watts

/-- Python range(a, b, step) for a positive step, as a list of integers. The
source only ever calls range with the positive PUMP_SPEED_STEP; a
non-positive step yields the empty list here. -/
def pyRange (a b step : Int) : List Int :=
  if 0 < step ∧ a < b then
    (List.range (((b - a - 1).toNat / step.toNat) + 1)).map (fun k : ℕ => a + (k : Int) * step)
  else []

/-- Sweep start speed (heaterController.py:339-344). last_optimal_speed is
the parsed persisted optimal_pump_speed_found field, none when it holds the
string N/A or parsing fails; the Python truthiness in the source condition
makes a stored 0 behave like an absent value. -/
def startSpeed (cfg : Config) (last_optimal_speed : Option Int) : Int :=
  match last_optimal_speed with
  | some b =>
    if b ≠ 0 ∧ cfg.MIN_PUMP_SPEED ≤ b ∧ b ≤ cfg.MAX_PUMP_SPEED then
      max cfg.MIN_PUMP_SPEED (b - 2 * cfg.PUMP_SPEED_STEP)
    else cfg.MIN_PUMP_SPEED
  | none => cfg.MIN_PUMP_SPEED

/-- Python sorted(list(set(l))): the ascending enumeration of the distinct
elements of l. -/
def sortedDedup (l : List Int) : List Int := List.insertionSort (· ≤ ·) l.dedup

/-- speeds_to_check (heaterController.py:354-355): ascending deduplicated
union of the progression from the start speed up to MAX_PUMP_SPEED and the
progression from MIN_PUMP_SPEED up to but excluding the start speed. -/
def speeds_to_check (cfg : Config) (last_optimal_speed : Option Int) : List Int :=
  sortedDedup
    (pyRange (startSpeed cfg last_optimal_speed) (cfg.MAX_PUMP_SPEED + 1) cfg.PUMP_SPEED_STEP ++
     pyRange cfg.MIN_PUMP_SPEED (startSpeed cfg last_optimal_speed) cfg.PUMP_SPEED_STEP)

/-- How the candidate loop of optimize_pump_speed ended. -/
inductive SweepOutcome | completed | safetyStop
deriving DecidableEq

/-- Mutable state of the candidate loop: the commanded duty cycle and the
best delta-T and speed seen in this cycle. -/
structure SweepState where
  duty : Int
  bestDt : ℚ
  bestSpeed : Int
deriving DecidableEq

/-- One candidate iteration before the cutoff test (heaterController.py:358
and 367-369): command the candidate speed, and record the sampled delta-T as
the cycle best when it beats the previous best. Callers apply this only when
both samples pass the truthiness test. -/
def sweepStep (cfg : Config) (speed : Int) (sample : Option ℚ × Option ℚ)
    (st : SweepState) : SweepState :=
  let st1 : SweepState := { st with duty := set_pump_speed cfg speed }
  let dt := sample.2.getD 0 - sample.1.getD 0
  if st1.bestDt < dt then { st1 with bestDt := dt, bestSpeed := speed } else st1

/-- Candidate loop of optimize_pump_speed (heaterController.py:356-372).
readings gives the inlet/outlet sample taken after stabilizing at a given
candidate speed. A sample failing the truthiness test leaves the cycle best
untouched and skips the cutoff test; an over-cutoff outlet on a passing
sample stops the pump and ends the loop at once. -/
def sweepLoop (cfg : Config) (readings : Int → Option ℚ × Option ℚ) :
    List Int → SweepState → SweepState × SweepOutcome
  | [], st => (st, .completed)
  | speed :: rest, st =>
    if pyTruthy (readings speed).1 && pyTruthy (readings speed).2 then
      if cfg.MAX_OUTLET_TEMP_CUTOFF < (readings speed).2.getD 0 then
        ({ sweepStep cfg speed (readings speed) st with duty := 0 }, .safetyStop)
      else
        sweepLoop cfg readings rest (sweepStep cfg speed (readings speed) st)
    else
      sweepLoop cfg readings rest { st with duty := set_pump_speed cfg speed }

/-- How optimize_pump_speed returned. -/
inductive OptResult | aborted | safetyStop | concluded | noViable
deriving DecidableEq

/-- Observable outcome of optimize_pump_speed: final commanded duty cycle,
the persisted optimal_pump_speed_found and max_delta_t_found fields after
the call, and which exit was taken. -/
structure OptOutcome where
  duty : Int
  optimal_pump_speed_found : Option Int
  max_delta_t_found : Option ℚ
  result : OptResult
deriving DecidableEq

/-- Conclusion phase of optimize_pump_speed (heaterController.py:374-386)
applied to the sweep result: on a safety stop the persisted fields are left
as they were; on completion the cycle best is compared against DELTA_T_OFF,
either setting the pump to the best speed and persisting best speed and
delta-T, or stopping the pump, keeping the persisted best speed and storing
the cycle best delta-T only when it moved off its -100 sentinel. -/
def optimize_conclude (cfg : Config) (last_optimal_speed : Option Int)
    (last_max_delta_t : Option ℚ) : SweepState × SweepOutcome → OptOutcome
  | (st, .safetyStop) =>
    { duty := st.duty, optimal_pump_speed_found := last_optimal_speed,
      max_delta_t_found := last_max_delta_t, result := .safetyStop }
  | (st, .completed) =>
    if cfg.DELTA_T_OFF ≤ st.bestDt then
      { duty := set_pump_speed cfg st.bestSpeed,
        optimal_pump_speed_found := some st.bestSpeed,
        max_delta_t_found := some st.bestDt, result := .concluded }
    else
      { duty := 0, optimal_pump_speed_found := last_optimal_speed,
        max_delta_t_found := if (-100 : ℚ) < st.bestDt then some st.bestDt else none,
        result := .noViable }

/-- optimize_pump_speed (heaterController.py:338-386). The entry test uses
an is-None check and a strict comparison against MIN_INLET_TEMP_TO_RUN, the
sweep starts from the -100 delta-T sentinel and the start speed, and the
conclusion phase settles the persisted fields and the final duty. -/
def optimize_pump_speed (cfg : Config) (last_optimal_speed : Option Int)
    (last_max_delta_t : Option ℚ) (initial_inlet_temp_c : Option ℚ)
    (readings : Int → Option ℚ × Option ℚ) : OptOutcome :=
  match initial_inlet_temp_c with
  | none =>
    { duty := 0, optimal_pump_speed_found := last_optimal_speed,
      max_delta_t_found := last_max_delta_t, result := .aborted }
  | some t =>
    if t < cfg.MIN_INLET_TEMP_TO_RUN then
      { duty := 0, optimal_pump_speed_found := last_optimal_speed,
        max_delta_t_found := last_max_delta_t, result := .aborted }
    else
      optimize_conclude cfg last_optimal_speed last_max_delta_t
        (sweepLoop cfg readings (speeds_to_check cfg last_optimal_speed)
          { duty := 0, bestDt := -100, bestSpeed := startSpeed cfg last_optimal_speed })

/-- Branch taken by one Auto control cycle after the reading pair
(heaterController.py:425-457). -/
inductive AutoAction
  | safetyCutoffStop
  | inletTooLowOff
  | deltaTOffStop
  | runOptimization
  | reOptimize
  | insufficientOff
  | sensorErrorStop
deriving DecidableEq

/-- Decision of one Auto control cycle (heaterController.py:435-457) on a
reading pair; pump_on is the test on the current actual duty. The actions
safetyCutoffStop, deltaTOffStop and sensorErrorStop call stop_pump,
inletTooLowOff stops the pump when it was on, runOptimization and reOptimize
invoke optimize_pump_speed, insufficientOff leaves the pump off. -/
def auto_cycle_decision (cfg : Config) (inlet_temp_c outlet_temp_c : Option ℚ)
    (pump_on : Bool) : AutoAction :=
  if pyTruthy inlet_temp_c && pyTruthy outlet_temp_c then
    let i := inlet_temp_c.getD 0
    let o := outlet_temp_c.getD 0
    let dt := o - i
    if cfg.MAX_OUTLET_TEMP_CUTOFF < o then .safetyCutoffStop
    else if i < cfg.MIN_INLET_TEMP_TO_RUN then .inletTooLowOff
    else if pump_on ∧ dt < cfg.DELTA_T_OFF then .deltaTOffStop
    else if ¬ pump_on ∧ cfg.DELTA_T_ON ≤ dt then .runOptimization
    else if pump_on then .reOptimize
    else .insufficientOff
  else .sensorErrorStop

/-- Concrete reading assignment for one sweep run: at candidate speed 20 the
inlet sample is missing while the outlet reads 80, above the default cutoff;
later candidates read valid pairs below the cutoff. -/
def readingsC1 : Int → Option ℚ × Option ℚ := fun s =>
  if s = 20 then (none, some 80) else if s = 25 then (some 30, some 36) else (some 30, some 31)

/-! Helper lemmas about the candidate list machinery. -/

theorem mem_pyRange {a b step x : Int} (hstep : 0 < step) :
    x ∈ pyRange a b step ↔ ∃ k : ℕ, x = a + k * step ∧ x < b := by
  unfold pyRange
  rcases lt_or_le a b with hab | hba
  · rw [if_pos (⟨hstep, hab⟩ : 0 < step ∧ a < b)]
    constructor
    · intro hx
      obtain ⟨k, hk, rfl⟩ := List.mem_map.mp hx
      rw [List.mem_range] at hk
      refine ⟨k, rfl, ?_⟩
      have hk2 : k ≤ (b - a - 1).toNat / step.toNat := Nat.lt_succ_iff.mp hk
      have hk3 : k * step.toNat ≤ (b - a - 1).toNat :=
        (Nat.le_div_iff_mul_le (by omega)).mp hk2
      have hc : ((k * step.toNat : ℕ) : Int) ≤ (((b - a - 1).toNat : ℕ) : Int) :=
        Int.ofNat_le.mpr hk3
      rw [Nat.cast_mul, Int.toNat_of_nonneg hstep.le,
        Int.toNat_of_nonneg (by omega : (0:Int) ≤ b - a - 1)] at hc
      linarith
    · rintro ⟨k, rfl, hx⟩
      refine List.mem_map.mpr ⟨k, List.mem_range.mpr ?_, rfl⟩
      have h1 : (k : Int) * step < b - a := by linarith
      have h2 : (k : Int) * step ≤ b - a - 1 := by
        have := Int.lt_iff_add_one_le.mp h1
        linarith
      have hc : ((k * step.toNat : ℕ) : Int) ≤ (((b - a - 1).toNat : ℕ) : Int) := by
        rw [Nat.cast_mul, Int.toNat_of_nonneg hstep.le,
          Int.toNat_of_nonneg (by omega : (0:Int) ≤ b - a - 1)]
        exact h2
      have hk3 : k * step.toNat ≤ (b - a - 1).toNat := Int.ofNat_le.mp hc
      exact Nat.lt_succ_iff.mpr ((Nat.le_div_iff_mul_le (by omega)).mpr hk3)
  · rw [if_neg (by omega : ¬ (0 < step ∧ a < b))]
    simp only [List.not_mem_nil, false_iff]
    rintro ⟨k, rfl, hx⟩
    have : (0 : Int) ≤ (k : Int) * step := mul_nonneg (Int.ofNat_nonneg k) hstep.le
    linarith

theorem mem_sortedDedup {l : List Int} {x : Int} : x ∈ sortedDedup l ↔ x ∈ l := by
  unfold sortedDedup
  rw [(List.perm_insertionSort _ _).mem_iff, List.mem_dedup]

theorem sorted_sortedDedup (l : List Int) : List.Sorted (· < ·) (sortedDedup l) := by
  have hs : List.Sorted (· ≤ ·) (sortedDedup l) := List.sorted_insertionSort _ _
  have hn : (sortedDedup l).Nodup :=
    (List.perm_insertionSort (· ≤ ·) l.dedup).nodup_iff.mpr l.nodup_dedup
  exact hs.lt_of_le hn

theorem startSpeed_ge_min (cfg : Config) (lastOpt : Option Int) :
    cfg.MIN_PUMP_SPEED ≤ startSpeed cfg lastOpt := by
  unfold startSpeed
  cases lastOpt with
  | none => exact le_refl _
  | some b =>
    dsimp only
    split
    · exact le_max_left _ _
    · exact le_refl _

theorem startSpeed_le_max (cfg : Config) (lastOpt : Option Int)
    (hmm : cfg.MIN_PUMP_SPEED ≤ cfg.MAX_PUMP_SPEED) (hstep : 0 ≤ cfg.PUMP_SPEED_STEP) :
    startSpeed cfg lastOpt ≤ cfg.MAX_PUMP_SPEED := by
  unfold startSpeed
  cases lastOpt with
  | none => exact hmm
  | some b =>
    dsimp only
    split
    · next h => exact max_le hmm (by omega)
    · exact hmm

theorem speeds_to_check_bounds (cfg : Config) (lastOpt : Option Int)
    (hmm : cfg.MIN_PUMP_SPEED ≤ cfg.MAX_PUMP_SPEED) (hstep : 0 < cfg.PUMP_SPEED_STEP) :
    ∀ s ∈ speeds_to_check cfg lastOpt, cfg.MIN_PUMP_SPEED ≤ s ∧ s ≤ cfg.MAX_PUMP_SPEED := by
  intro s hs
  rw [speeds_to_check, mem_sortedDedup, List.mem_append] at hs
  rcases hs with h | h
  · rcases (mem_pyRange hstep).mp h with ⟨k, rfl, hlt⟩
    have h1 := startSpeed_ge_min cfg lastOpt
    have h2 : (0 : Int) ≤ (k : Int) * cfg.PUMP_SPEED_STEP :=
      mul_nonneg (Int.ofNat_nonneg k) hstep.le
    constructor
    · linarith
    · linarith
  · rcases (mem_pyRange hstep).mp h with ⟨k, rfl, hlt⟩
    have h1 := startSpeed_le_max cfg lastOpt hmm hstep.le
    have h2 : (0 : Int) ≤ (k : Int) * cfg.PUMP_SPEED_STEP :=
      mul_nonneg (Int.ofNat_nonneg k) hstep.le
    constructor
    · linarith
    · linarith

theorem sweepStep_bestSpeed (cfg : Config) (speed : Int) (sample : Option ℚ × Option ℚ)
    (st : SweepState) :
    (sweepStep cfg speed sample st).bestSpeed = st.bestSpeed ∨
    (sweepStep cfg speed sample st).bestSpeed = speed := by
  unfold sweepStep
  dsimp only
  split
  · exact Or.inr rfl
  · exact Or.inl rfl

theorem sweepLoop_bestSpeed_bounds (cfg : Config) (r : Int → Option ℚ × Option ℚ)
    (lo hi : Int) :
    ∀ (l : List Int) (st : SweepState),
      lo ≤ st.bestSpeed → st.bestSpeed ≤ hi → (∀ s ∈ l, lo ≤ s ∧ s ≤ hi) →
      lo ≤ (sweepLoop cfg r l st).1.bestSpeed ∧ (sweepLoop cfg r l st).1.bestSpeed ≤ hi := by
  intro l
  induction l with
  | nil => intro st h1 h2 _; exact ⟨h1, h2⟩
  | cons speed rest ih =>
    intro st h1 h2 hl
    have hsp := hl speed (List.mem_cons_self _ _)
    have hrest : ∀ s ∈ rest, lo ≤ s ∧ s ≤ hi := fun s hs => hl s (List.mem_cons_of_mem _ hs)
    have hstep1 : lo ≤ (sweepStep cfg speed (r speed) st).bestSpeed ∧
        (sweepStep cfg speed (r speed) st).bestSpeed ≤ hi := by
      rcases sweepStep_bestSpeed cfg speed (r speed) st with h | h
      · rw [h]; exact ⟨h1, h2⟩
      · rw [h]; exact hsp
    rw [sweepLoop]
    split
    · split
      · exact hstep1
      · exact ih _ hstep1.1 hstep1.2 hrest
    · exact ih _ h1 h2 hrest

theorem sweepLoop_allFail (cfg : Config) (r : Int → Option ℚ × Option ℚ) :
    ∀ (l : List Int) (st : SweepState),
      (∀ s ∈ l, (r s).1 = none ∨ (r s).2 = none) →
      (sweepLoop cfg r l st).2 = SweepOutcome.completed ∧
      (sweepLoop cfg r l st).1.bestDt = st.bestDt := by
  intro l
  induction l with
  | nil => intro st _; exact ⟨rfl, rfl⟩
  | cons speed rest ih =>
    intro st h
    have hsp : (pyTruthy (r speed).1 && pyTruthy (r speed).2) = false := by
      rcases h speed (List.mem_cons_self _ _) with h1 | h1 <;>
        simp [h1, pyTruthy]
    rw [sweepLoop, hsp]
    simp only [Bool.false_eq_true, if_false]
    exact ih _ (fun s hs => h s (List.mem_cons_of_mem _ hs))

theorem daily_accumulate_off (st : DailyStats) (e : ℚ) (p : Option ℚ) :
    daily_accumulate st false e p = st := rfl

theorem daily_accumulate_on_none (st : DailyStats) (e : ℚ) :
    daily_accumulate st true e none =
      { st with pump_on_time_today_s := st.pump_on_time_today_s + e } := rfl

theorem daily_accumulate_on_pos (st : DailyStats) (e : ℚ) (p : ℚ) (hp : 0 < p) :
    daily_accumulate st true e (some p) =
      { st with
        pump_on_time_today_s := st.pump_on_time_today_s + e
        energy_harvested_today_wh := st.energy_harvested_today_wh + p * e / 3600 } := by
  unfold daily_accumulate
  rw [if_pos rfl]
  dsimp only
  rw [if_pos hp]

theorem daily_accumulate_on_nonpos (st : DailyStats) (e : ℚ) (p : ℚ) (hp : ¬ 0 < p) :
    daily_accumulate st true e (some p) =
      { st with pump_on_time_today_s := st.pump_on_time_today_s + e } := by
  unfold daily_accumulate
  rw [if_pos rfl]
  dsimp only
  rw [if_neg hp]

theorem daily_reset_ne (today : String) (st : DailyStats)
    (h : st.last_stats_reset_date ≠ today) :
    daily_reset today st =
      { last_stats_reset_date := today, pump_on_time_today_s := 0,
        energy_harvested_today_wh := 0 } := by
  unfold daily_reset
  rw [if_pos h]

theorem daily_reset_eq (today : String) (st : DailyStats)
    (h : st.last_stats_reset_date = today) :
    daily_reset today st = st := by
  unfold daily_reset
  rw [if_neg (by simp [h])]

/-- C1 (counterexample): the sweep does not stop unconditionally at the first
sampled outlet above MAX_OUTLET_TEMP_CUTOFF. With the small configuration,
candidate 20 is tested and its outlet sample reads 80, above the cutoff 75,
but its inlet sample is missing, so the cutoff test inside the both-readings
branch is skipped: the sweep continues through the remaining candidates and
concludes with the pump running at 25 percent instead of stopping. -/
theorem sweep_cutoff_counterexample :
    20 ∈ speeds_to_check cfgSmall none ∧
    (readingsC1 20).2 = some 80 ∧
    cfgSmall.MAX_OUTLET_TEMP_CUTOFF < 80 ∧
    optimize_pump_speed cfgSmall none none (some 30) readingsC1 =
      { duty := 25, optimal_pump_speed_found := some 25, max_delta_t_found := some 6,
        result := OptResult.concluded } := by
  have hspeeds : speeds_to_check cfgSmall none = [20, 25, 30] := by decide
  refine ⟨by decide, rfl, by norm_num [cfgSmall], ?_⟩
  rw [optimize_pump_speed]
  rw [if_neg (by norm_num [cfgSmall])]
  rw [hspeeds]
  norm_num [sweepLoop, sweepStep, pyTruthy, readingsC1, set_pump_speed, optimize_conclude,
    startSpeed, cfgSmall]

/-- C1 (amended): the first time a sample with BOTH readings present and
nonzero has its outlet above MAX_OUTLET_TEMP_CUTOFF, the pump is stopped and
the sweep ends immediately, regardless of how many candidate speeds remain;
a sample with a missing or zero reading never triggers the cutoff stop. -/
theorem sweep_safety_stop_on_valid_sample (cfg : Config)
    (r : Int → Option ℚ × Option ℚ) (speed : Int) (rest : List Int) (st : SweepState)
    (tin tout : ℚ) (hr : r speed = (some tin, some tout)) (hin : tin ≠ 0) (hout : tout ≠ 0)
    (hcut : cfg.MAX_OUTLET_TEMP_CUTOFF < tout) :
    (sweepLoop cfg r (speed :: rest) st).2 = SweepOutcome.safetyStop ∧
    (sweepLoop cfg r (speed :: rest) st).1.duty = 0 := by
  rw [sweepLoop, hr]
  dsimp only [pyTruthy, Option.getD_some]
  have hcond : (tin != 0 && tout != 0) = true := by simp [hin, hout]
  rw [if_pos hcond, if_pos hcut]
  exact ⟨rfl, rfl⟩

/-- C1 witness: a concrete over-cutoff valid sample at the head of a sweep
with two candidates still pending stops the pump at once. -/
theorem sweep_safety_stop_witness :
    (sweepLoop cfgSmall (fun _ => (some 30, some 80)) [20, 25, 30]
      { duty := 0, bestDt := -100, bestSpeed := 20 }).2 = SweepOutcome.safetyStop ∧
    (sweepLoop cfgSmall (fun _ => (some 30, some 80)) [20, 25, 30]
      { duty := 0, bestDt := -100, bestSpeed := 20 }).1.duty = 0 := by
  exact sweep_safety_stop_on_valid_sample cfgSmall (fun _ => (some 30, some 80)) 20 [25, 30]
    { duty := 0, bestDt := -100, bestSpeed := 20 } 30 80 rfl (by norm_num) (by norm_num)
    (by norm_num [cfgSmall])

/-- C2: for every configuration with 0 < MIN_PUMP_SPEED ≤ MAX_PUMP_SPEED ≤
100 and every requested speed, set_pump_speed commands duty 0 on a
non-positive request, MIN_PUMP_SPEED on a positive request below it,
MAX_PUMP_SPEED on a request above it, and the actual duty is always either 0
or inside the configured band. -/
theorem set_pump_speed_band (cfg : Config) (x : Int)
    (h0 : 0 < cfg.MIN_PUMP_SPEED) (h1 : cfg.MIN_PUMP_SPEED ≤ cfg.MAX_PUMP_SPEED)
    (h2 : cfg.MAX_PUMP_SPEED ≤ 100) :
    (x ≤ 0 → set_pump_speed cfg x = 0) ∧
    (0 < x → x < cfg.MIN_PUMP_SPEED → set_pump_speed cfg x = cfg.MIN_PUMP_SPEED) ∧
    (cfg.MAX_PUMP_SPEED < x → set_pump_speed cfg x = cfg.MAX_PUMP_SPEED) ∧
    (set_pump_speed cfg x = 0 ∨
      (cfg.MIN_PUMP_SPEED ≤ set_pump_speed cfg x ∧ set_pump_speed cfg x ≤ cfg.MAX_PUMP_SPEED)) := by
  unfold set_pump_speed
  dsimp only
  split
  · refine ⟨fun hx => by omega, fun ha hb => by omega, fun hx => by omega, by omega⟩
  · refine ⟨fun hx => rfl, fun ha hb => by omega, fun hx => by omega, Or.inl rfl⟩

/-- C2 witness: with the default configuration a request of 10 is raised to
the minimum speed 20 and a request of -3 turns the pump off. -/
theorem set_pump_speed_band_witness :
    set_pump_speed defaultConfig 10 = 20 ∧ set_pump_speed defaultConfig (-3) = 0 := by
  have h := set_pump_speed_band defaultConfig 10 (by decide) (by decide) (by decide)
  have h2 := set_pump_speed_band defaultConfig (-3) (by decide) (by decide) (by decide)
  exact ⟨h.2.1 (by decide) (by decide), h2.1 (by decide)⟩

/-- C3 (code bug): a reading of exactly 0.0 Celsius is treated like a sensor
fault by the code, contradicting the spec, which says absence, never zero,
represents a fault. With the default configuration an Auto cycle reading
inlet 0.0 and outlet 25.0 (or inlet 20.0 and outlet 0.0) takes the
sensor-error branch, which stops the pump, instead of evaluating delta-T;
and a sweep sample of inlet 0.0, outlet 36.0 is skipped, leaving the cycle
best delta-T at its -100 sentinel. -/
theorem zero_celsius_reading_is_sensor_fault :
    auto_cycle_decision defaultConfig (some 0) (some 25) false = AutoAction.sensorErrorStop ∧
    auto_cycle_decision defaultConfig (some 20) (some 0) true = AutoAction.sensorErrorStop ∧
    (sweepLoop defaultConfig (fun _ => (some 0, some 36)) [20]
      { duty := 0, bestDt := -100, bestSpeed := 20 }).1.bestDt = -100 := by
  refine ⟨?_, ?_, ?_⟩
  · norm_num [auto_cycle_decision, pyTruthy]
  · norm_num [auto_cycle_decision, pyTruthy]
  · norm_num [sweepLoop, pyTruthy]

/-- C4: after a completed sweep whose best delta-T is at or above
DELTA_T_OFF, the pump is set to the best candidate speed and the persisted
best-known-speed and best-delta-T fields are updated to that candidate and
that delta-T; after a completed sweep whose best delta-T is below
DELTA_T_OFF, the pump is stopped and the persisted best-known-speed field is
left unchanged. -/
theorem optimize_conclusion_spec (cfg : Config) (lastOpt : Option Int) (lastDt : Option ℚ)
    (t : ℚ) (r : Int → Option ℚ × Option ℚ) (stF : SweepState)
    (h0 : 0 < cfg.MIN_PUMP_SPEED) (h1 : cfg.MIN_PUMP_SPEED ≤ cfg.MAX_PUMP_SPEED)
    (h2 : cfg.MAX_PUMP_SPEED ≤ 100) (hstep : 0 < cfg.PUMP_SPEED_STEP)
    (ht : ¬ t < cfg.MIN_INLET_TEMP_TO_RUN)
    (hsweep : sweepLoop cfg r (speeds_to_check cfg lastOpt)
        { duty := 0, bestDt := -100, bestSpeed := startSpeed cfg lastOpt } =
        (stF, SweepOutcome.completed)) :
    (cfg.DELTA_T_OFF ≤ stF.bestDt →
      optimize_pump_speed cfg lastOpt lastDt (some t) r =
        { duty := stF.bestSpeed, optimal_pump_speed_found := some stF.bestSpeed,
          max_delta_t_found := some stF.bestDt, result := OptResult.concluded }) ∧
    (stF.bestDt < cfg.DELTA_T_OFF →
      (optimize_pump_speed cfg lastOpt lastDt (some t) r).duty = 0 ∧
      (optimize_pump_speed cfg lastOpt lastDt (some t) r).optimal_pump_speed_found = lastOpt ∧
      (optimize_pump_speed cfg lastOpt lastDt (some t) r).result = OptResult.noViable) := by
  have hb := sweepLoop_bestSpeed_bounds cfg r cfg.MIN_PUMP_SPEED cfg.MAX_PUMP_SPEED
    (speeds_to_check cfg lastOpt)
    { duty := 0, bestDt := -100, bestSpeed := startSpeed cfg lastOpt }
    (startSpeed_ge_min cfg lastOpt) (startSpeed_le_max cfg lastOpt h1 hstep.le)
    (speeds_to_check_bounds cfg lastOpt h1 hstep)
  rw [hsweep] at hb
  dsimp only at hb
  have hset : set_pump_speed cfg stF.bestSpeed = stF.bestSpeed := by
    unfold set_pump_speed
    dsimp only
    split <;> omega
  rw [optimize_pump_speed, if_neg ht, hsweep]
  constructor
  · intro hoff
    rw [optimize_conclude]
    rw [if_pos hoff, hset]
  · intro hoff
    rw [optimize_conclude]
    rw [if_neg (not_le.mpr hoff)]
    exact ⟨rfl, rfl, rfl⟩

/-- C4 witness: a concrete sweep with constant readings of inlet 30 and
outlet 36 finds delta-T 6 at the first candidate 20, which is at or above
the off-threshold, so the engine commands duty 20 and persists 20 and 6. -/
theorem optimize_conclusion_witness :
    optimize_pump_speed cfgSmall none none (some 30) (fun _ => (some 30, some 36)) =
      { duty := 20, optimal_pump_speed_found := some 20, max_delta_t_found := some 6,
        result := OptResult.concluded } := by
  have hsweep : sweepLoop cfgSmall (fun _ => (some 30, some 36))
      (speeds_to_check cfgSmall none)
      { duty := 0, bestDt := -100, bestSpeed := startSpeed cfgSmall none } =
      ({ duty := 30, bestDt := 6, bestSpeed := 20 }, SweepOutcome.completed) := by
    have hspeeds : speeds_to_check cfgSmall none = [20, 25, 30] := by decide
    rw [hspeeds]
    norm_num [sweepLoop, sweepStep, pyTruthy, set_pump_speed, startSpeed, cfgSmall]
  exact (optimize_conclusion_spec cfgSmall none none 30 (fun _ => (some 30, some 36))
    { duty := 30, bestDt := 6, bestSpeed := 20 } (by decide) (by decide) (by decide)
    (by decide) (by norm_num [cfgSmall]) hsweep).1 (by norm_num [cfgSmall])

/-- C5: under a sane configuration (0 ≤ MIN_PUMP_SPEED ≤ MAX_PUMP_SPEED,
positive step) the sweep start is MIN_PUMP_SPEED unless a prior best-known
speed lies within bounds, in which case it is that best lowered by twice the
step, bounded below by MIN_PUMP_SPEED; the candidate list is exactly the
union of the two arithmetic progressions described by the spec, every
candidate lies in the configured band, and candidates are strictly
ascending, hence tested in ascending order. -/
theorem speeds_to_check_spec (cfg : Config) (lastOpt : Option Int)
    (hmin0 : 0 ≤ cfg.MIN_PUMP_SPEED) (hmm : cfg.MIN_PUMP_SPEED ≤ cfg.MAX_PUMP_SPEED)
    (hstep : 0 < cfg.PUMP_SPEED_STEP) :
    (startSpeed cfg lastOpt =
      (match lastOpt with
       | some b =>
         if cfg.MIN_PUMP_SPEED ≤ b ∧ b ≤ cfg.MAX_PUMP_SPEED then
           max cfg.MIN_PUMP_SPEED (b - 2 * cfg.PUMP_SPEED_STEP)
         else cfg.MIN_PUMP_SPEED
       | none => cfg.MIN_PUMP_SPEED)) ∧
    (∀ s : Int, s ∈ speeds_to_check cfg lastOpt ↔
      ((∃ k : ℕ, s = startSpeed cfg lastOpt + k * cfg.PUMP_SPEED_STEP ∧
          s ≤ cfg.MAX_PUMP_SPEED) ∨
       (∃ k : ℕ, s = cfg.MIN_PUMP_SPEED + k * cfg.PUMP_SPEED_STEP ∧
          s < startSpeed cfg lastOpt))) ∧
    (∀ s ∈ speeds_to_check cfg lastOpt, cfg.MIN_PUMP_SPEED ≤ s ∧ s ≤ cfg.MAX_PUMP_SPEED) ∧
    List.Sorted (· < ·) (speeds_to_check cfg lastOpt) := by
  refine ⟨?_, ?_, speeds_to_check_bounds cfg lastOpt hmm hstep, ?_⟩
  · unfold startSpeed
    cases lastOpt with
    | none => rfl
    | some b =>
      dsimp only
      by_cases hb : b = 0
      · subst hb
        split_ifs with h1 h2 <;> omega
      · simp only [hb, ne_eq, not_false_eq_true, true_and]
  · intro s
    rw [speeds_to_check, mem_sortedDedup, List.mem_append, mem_pyRange hstep,
      mem_pyRange hstep]
    constructor
    · rintro (⟨k, rfl, hk⟩ | ⟨k, rfl, hk⟩)
      · exact Or.inl ⟨k, rfl, by omega⟩
      · exact Or.inr ⟨k, rfl, hk⟩
    · rintro (⟨k, rfl, hk⟩ | ⟨k, rfl, hk⟩)
      · exact Or.inl ⟨k, rfl, by omega⟩
      · exact Or.inr ⟨k, rfl, hk⟩
  · rw [speeds_to_check]
    exact sorted_sortedDedup _

/-- C5 witness: with the default configuration and a prior best of 40 the
candidate list is strictly ascending and stays inside the 20 to 100 band. -/
theorem speeds_to_check_spec_witness :
    List.Sorted (· < ·) (speeds_to_check defaultConfig (some 40)) ∧
    (∀ s ∈ speeds_to_check defaultConfig (some 40),
      defaultConfig.MIN_PUMP_SPEED ≤ s ∧ s ≤ defaultConfig.MAX_PUMP_SPEED) := by
  have h := speeds_to_check_spec defaultConfig (some 40) (by decide) (by decide) (by decide)
  exact ⟨h.2.2.2, h.2.2.1⟩

/-- C6 (counterexample): for duty 50, flow 20 LPM and delta-T 5 the code
computes 10465/3, about 3488.33 W, which is more than 2500 W away from the
claimed approximate value 871.25 W. -/
theorem thermal_power_example_counterexample :
    calculate_estimated_thermal_power defaultConfig (some 5) (some 50) = some (10465/3) ∧
    (3485/4 : ℚ) + 2500 < 10465/3 := by
  constructor
  · norm_num [calculate_estimated_thermal_power, defaultConfig,
      SPECIFIC_HEAT_CAPACITY_WATER, WATER_DENSITY_KG_L]
  · norm_num

/-- C6 (amended): estimated thermal power is unavailable whenever delta-T is
unknown, the duty is unknown, or the duty is 0, and otherwise equals
(duty/100 x maxFlowLPM/60) x 1 x 4186 x deltaT watts; for duty 50, flow 20
and delta-T 5 the value is 10465/3, about 3488.33 W (not 871.25 W). -/
theorem thermal_power_spec (cfg : Config) (d s : ℚ) :
    calculate_estimated_thermal_power cfg none (some s) = none ∧
    calculate_estimated_thermal_power cfg (some d) none = none ∧
    calculate_estimated_thermal_power cfg (some d) (some 0) = none ∧
    (s ≠ 0 → calculate_estimated_thermal_power cfg (some d) (some s) =
      some ((s / 100 * (cfg.MAX_PUMP_FLOW_RATE_LPM / 60)) * 1 * 4186 * d)) ∧
    calculate_estimated_thermal_power defaultConfig (some 5) (some 50) = some (10465/3) := by
  refine ⟨rfl, rfl, by norm_num [calculate_estimated_thermal_power], fun hs => ?_, ?_⟩
  · simp [calculate_estimated_thermal_power, hs, WATER_DENSITY_KG_L, SPECIFIC_HEAT_CAPACITY_WATER]
  · norm_num [calculate_estimated_thermal_power, defaultConfig,
      SPECIFIC_HEAT_CAPACITY_WATER, WATER_DENSITY_KG_L]

/-- C6 witness: the formula applied at duty 50 with the default flow. -/
theorem thermal_power_spec_witness :
    calculate_estimated_thermal_power defaultConfig (some 5) (some 50) =
      some ((50 / 100 * (defaultConfig.MAX_PUMP_FLOW_RATE_LPM / 60)) * 1 * 4186 * 5) := by
  exact (thermal_power_spec defaultConfig 5 50).2.2.2.1 (by norm_num)

/-- C7 (counterexample): a call with a missing inlet whose keyword set is
system_message plus control_mode is not a pure status-only update in the
sense of the claim (control_mode is not one of the duty, message and target
keys), yet the code appends no null history point, because the presence of
any one of the three status keys already suppresses the null append. -/
theorem history_null_point_condition_counterexample :
    ¬ (∀ k ∈ ["system_message", "control_mode"], k ∈ status_only_keys) ∧
    (update_status_and_history TempUnit.C none (some 25)
      ["system_message", "control_mode"]).historyAppend = none ∧
    (update_status_and_history TempUnit.C none (some 25)
      ["system_message", "control_mode"]).logAppend = none := by
  refine ⟨by decide, ?_, ?_⟩ <;>
    norm_num [update_status_and_history, status_only_keys]

/-- C7 (amended): a call with a missing temperature never appends a log
record, and appends an all-null history point exactly when the call carries
none of the keys pump_speed, system_message and target_pump_speed; a call
with both temperatures present appends exactly one history point and one log
record. -/
theorem record_reading_appends_spec (u : TempUnit) (inlet outlet : Option ℚ)
    (kw : List String) :
    ((inlet = none ∨ outlet = none) →
      (update_status_and_history u inlet outlet kw).logAppend = none ∧
      (update_status_and_history u inlet outlet kw).historyAppend =
        (if status_only_keys.any (fun k => kw.contains k) then none else some (none, none))) ∧
    (∀ i o : ℚ, inlet = some i → outlet = some o →
      (update_status_and_history u inlet outlet kw).historyAppend =
        some (some (round2 (graph_temp_value u i)), some (round2 (graph_temp_value u o))) ∧
      (update_status_and_history u inlet outlet kw).logAppend = some (round2 i, round2 o)) := by
  constructor
  · intro hmiss
    have hm : update_status_and_history u inlet outlet kw =
        (if status_only_keys.any (fun k => kw.contains k) then
          { historyAppend := none, logAppend := none }
        else { historyAppend := some (none, none), logAppend := none }) := by
      rcases hmiss with rfl | rfl
      · cases outlet <;> rfl
      · cases inlet <;> rfl
    rw [hm]
    split <;> exact ⟨rfl, rfl⟩
  · rintro i o rfl rfl
    exact ⟨rfl, rfl⟩

/-- C7 witness: a call with both temperatures missing and no keyword fields
appends a null history point and no log record. -/
theorem record_reading_appends_witness :
    (update_status_and_history TempUnit.C none none []).logAppend = none ∧
    (update_status_and_history TempUnit.C none none []).historyAppend = some (none, none) := by
  have h := (record_reading_appends_spec TempUnit.C none none []).1 (Or.inl rfl)
  refine ⟨h.1, ?_⟩
  rw [h.2]
  rfl

/-- C8 (counterexample): with display unit Fahrenheit, an accepted reading
of inlet 20 and outlet 25 Celsius is stored in the history ring as 68 and
77, the Fahrenheit conversions, not as the Celsius values the claim
requires. -/
theorem history_point_unit_counterexample :
    (update_status_and_history TempUnit.F (some 20) (some 25) []).historyAppend =
      some (some 68, some 77) ∧
    (68 : ℚ) ≠ round2 20 ∧ (77 : ℚ) ≠ round2 25 := by
  refine ⟨?_, ?_, ?_⟩ <;>
    norm_num [update_status_and_history, graph_temp_value, celsius_to_fahrenheit, round2]

/-- C8 (amended): every non-null history point stores the temperatures in
the configured display unit, rounded to two decimals: the raw Celsius
values when the unit is C, their Fahrenheit conversions when the unit is F;
the log record always stores the Celsius values rounded to two decimals. -/
theorem history_point_stores_display_unit (u : TempUnit) (i o : ℚ) (kw : List String) :
    (update_status_and_history u (some i) (some o) kw).historyAppend =
      some (some (round2 (graph_temp_value u i)), some (round2 (graph_temp_value u o))) ∧
    (update_status_and_history u (some i) (some o) kw).logAppend = some (round2 i, round2 o) ∧
    graph_temp_value TempUnit.C i = i ∧
    graph_temp_value TempUnit.F i = i * 9 / 5 + 32 := by
  exact ⟨rfl, rfl, rfl, rfl⟩

/-- C9: a tick zeroes both accumulators and updates the stored date exactly
when the stored reset date differs from the current local date (the tick
then behaves as if run from the zeroed state); on a tick within the same
date, with non-negative elapsed time, both accumulators are monotonically
non-decreasing, the on-time grows by exactly the elapsed seconds only when
the pump is on, and the energy grows by power times elapsed over 3600 only
when the power is a known positive value. -/
theorem daily_stats_tick_spec (today : String) (st : DailyStats) (pumpOn : Bool)
    (elapsed : ℚ) (power : Option ℚ) (he : 0 ≤ elapsed) :
    (st.last_stats_reset_date ≠ today →
      update_daily_stats today st pumpOn elapsed power =
        update_daily_stats today
          { last_stats_reset_date := today, pump_on_time_today_s := 0,
            energy_harvested_today_wh := 0 } pumpOn elapsed power) ∧
    (st.last_stats_reset_date = today →
      (update_daily_stats today st pumpOn elapsed power).last_stats_reset_date = today ∧
      st.pump_on_time_today_s ≤ (update_daily_stats today st pumpOn elapsed power).pump_on_time_today_s ∧
      st.energy_harvested_today_wh ≤
        (update_daily_stats today st pumpOn elapsed power).energy_harvested_today_wh ∧
      (pumpOn = true →
        (update_daily_stats today st pumpOn elapsed power).pump_on_time_today_s =
          st.pump_on_time_today_s + elapsed) ∧
      (pumpOn = false → update_daily_stats today st pumpOn elapsed power = st) ∧
      (∀ p : ℚ, power = some p → 0 < p → pumpOn = true →
        (update_daily_stats today st pumpOn elapsed power).energy_harvested_today_wh =
          st.energy_harvested_today_wh + p * elapsed / 3600) ∧
      (∀ p : ℚ, power = some p → ¬ 0 < p →
        (update_daily_stats today st pumpOn elapsed power).energy_harvested_today_wh =
          st.energy_harvested_today_wh) ∧
      (power = none →
        (update_daily_stats today st pumpOn elapsed power).energy_harvested_today_wh =
          st.energy_harvested_today_wh)) := by
  constructor
  · intro hneq
    unfold update_daily_stats
    rw [daily_reset_ne today st hneq, daily_reset_eq today _ rfl]
  · intro heq
    unfold update_daily_stats
    rw [daily_reset_eq today st heq]
    cases pumpOn with
    | false =>
      rw [daily_accumulate_off]
      refine ⟨heq, le_refl _, le_refl _, by simp, fun _ => rfl, ?_, fun p hp hnp => rfl,
        fun _ => rfl⟩
      intro p hp hpos htrue
      exact absurd htrue (by simp)
    | true =>
      cases power with
      | none =>
        rw [daily_accumulate_on_none]
        refine ⟨heq, by simp [he], le_refl _, fun _ => rfl, by simp, ?_, ?_, fun _ => rfl⟩
        · intro p hp; exact absurd hp (by simp)
        · intro p hp; exact absurd hp (by simp)
      | some p =>
        by_cases hpos : 0 < p
        · rw [daily_accumulate_on_pos st elapsed p hpos]
          refine ⟨heq, by simp [he], ?_, fun _ => rfl, by simp, ?_, ?_, by simp⟩
          · have h3 : 0 ≤ p * elapsed / 3600 :=
              div_nonneg (mul_nonneg hpos.le he) (by norm_num)
            dsimp only
            linarith
          · intro q hq hq2 _
            obtain rfl : p = q := by injection hq
            rfl
          · intro q hq hnq
            obtain rfl : p = q := by injection hq
            exact absurd hpos hnq
        · rw [daily_accumulate_on_nonpos st elapsed p hpos]
          refine ⟨heq, by simp [he], le_refl _, fun _ => rfl, by simp, ?_, ?_, by simp⟩
          · intro q hq hq2 _
            obtain rfl : p = q := by injection hq
            exact absurd hq2 hpos
          · intro q hq hnq; rfl

/-- C9 witness: the first tick after a date rollover behaves exactly like a
tick from the zeroed state with the new date. -/
theorem daily_stats_tick_witness :
    update_daily_stats "2026-10-12" ⟨"2026-10-11", 100, 50⟩ true 1 (some 500) =
      update_daily_stats "2026-10-12" ⟨"2026-10-12", 0, 0⟩ true 1 (some 500) := by
  exact (daily_stats_tick_spec "2026-10-12" ⟨"2026-10-11", 100, 50⟩ true 1 (some 500)
    (by norm_num)).1 (by decide)

/-- C10: when the entry inlet reading passes and every candidate of the
sweep yields a failed reading pair (inlet or outlet missing), the cycle best
delta-T stays at the -100 sentinel, so for every configuration with
DELTA_T_OFF above -100 the engine takes the no-viable-speed branch: the
sweep ends with the pump stopped. -/
theorem all_faulty_sweep_stops_pump (cfg : Config) (lastOpt : Option Int)
    (lastDt : Option ℚ) (t : ℚ) (r : Int → Option ℚ × Option ℚ)
    (ht : ¬ t < cfg.MIN_INLET_TEMP_TO_RUN)
    (hfail : ∀ s ∈ speeds_to_check cfg lastOpt, (r s).1 = none ∨ (r s).2 = none)
    (hoff : (-100 : ℚ) < cfg.DELTA_T_OFF) :
    (optimize_pump_speed cfg lastOpt lastDt (some t) r).duty = 0 ∧
    (optimize_pump_speed cfg lastOpt lastDt (some t) r).result = OptResult.noViable := by
  obtain ⟨hc, hdt⟩ := sweepLoop_allFail cfg r (speeds_to_check cfg lastOpt)
    { duty := 0, bestDt := -100, bestSpeed := startSpeed cfg lastOpt } hfail
  have hpair : sweepLoop cfg r (speeds_to_check cfg lastOpt)
      { duty := 0, bestDt := -100, bestSpeed := startSpeed cfg lastOpt } =
      ((sweepLoop cfg r (speeds_to_check cfg lastOpt)
        { duty := 0, bestDt := -100, bestSpeed := startSpeed cfg lastOpt }).1,
       SweepOutcome.completed) := by
    rw [← hc]
  rw [optimize_pump_speed, if_neg ht, hpair, optimize_conclude]
  rw [if_neg (by rw [hdt]; exact not_le.mpr hoff)]
  exact ⟨rfl, rfl⟩

/-- C10 witness: with the default configuration, an entry inlet of 15 and
every sample missing, the sweep concludes with no viable speed and duty 0. -/
theorem all_faulty_sweep_witness :
    (optimize_pump_speed defaultConfig none none (some 15) (fun _ => (none, none))).duty = 0 ∧
    (optimize_pump_speed defaultConfig none none (some 15)
      (fun _ => (none, none))).result = OptResult.noViable := by
  exact all_faulty_sweep_stops_pump defaultConfig none none 15 (fun _ => (none, none))
    (by norm_num [defaultConfig]) (fun s _ => Or.inl rfl) (by norm_num [defaultConfig])
